import Mathlib

/-!
Shallow embedding of the mcp-zoho-inventory core: the token lifecycle
manager (`auth.py`), the resilient request executor (`client.py`),
and the item / warehouse clients (`items.py`, `warehouses.py`).

Machine conventions:
* timestamps (`time.time()`, `token_expiry`, `expires_at`) are rationals;
* stock quantities coming back from the upstream JSON are rationals
  (the JSON value may be a fractional number or a numeric string, which
  Python coerces with `int(float(x))`, truncation toward zero);
* absent JSON fields are `Option.none`; Python truthiness of an optional
  string (`if not self.refresh_token`) is `truthy` below;
* network effects are oracles passed in explicitly: the outcome of the
  OAuth exchange, the statuses of successive HTTP calls, and whether the
  token-file write raises.
-/

namespace ZohoInv

/-- Python truthiness of an `Optional[str]`: `None` and `""` are falsy. -/
def truthy : Option String → Bool
  | none => false
  | some s => !s.isEmpty

/-- Python `a or b` on optional strings: `a` when truthy, else `b`. -/
def pyOr (a b : Option String) : Option String :=
  if truthy a then a else b

/-- Python `int(float(q))`: truncation toward zero of a rational. -/
def trunc (q : ℚ) : ℤ :=
  if 0 ≤ q then ⌊q⌋ else -⌊-q⌋

theorem trunc_intCast (n : ℤ) : trunc (n : ℚ) = n := by
  unfold trunc
  rcases le_or_lt 0 (n : ℚ) with h | h
  · simp [h]
  · have hn : ¬ (0 : ℚ) ≤ (n : ℚ) := not_le.mpr h
    simp only [hn, if_false]
    rw [← Int.cast_neg, Int.floor_intCast]
    omega

/-! ## Token lifecycle manager (`auth.py::ZohoAuth`)

Mutable state: `auth_token` (nullable string) and `token_expiry`
(seconds since epoch, initialised to `0`). -/

/-- In-memory credential state of `ZohoAuth`. -/
structure AuthState where
  auth_token : Option String
  token_expiry : ℚ
  deriving Repr, DecidableEq

/-- Parsed JSON body of a 2xx response from the OAuth token endpoint:
`data.get("access_token")` and `data.get("expires_in", 3600)`. -/
structure RefreshBody where
  access_token : Option String
  expires_in : Option ℚ
  deriving Repr, DecidableEq

/-- What the OAuth token endpoint did for one `client.post` call:
either the transport raised, or a response with a status code arrived
(whose JSON body is `none` when `response.json()` raises). -/
inductive RefreshHttp where
  | transportError
  | response (status : ℕ) (body : Option RefreshBody)
  deriving Repr, DecidableEq

/-- Oracle for one execution of `refresh_access_token`: the HTTP outcome,
whether `save_token` raises (a disk-write failure), and the current time. -/
structure RefreshEnv where
  http : RefreshHttp
  saveFails : Bool
  now : ℚ
  deriving Repr, DecidableEq

/-- Embedding of `auth.py::ZohoAuth.refresh_access_token`, line by line.

The whole body sits in a `try`/`except Exception: return False` block:
* a transport error, a `raise_for_status` on a non-2xx status, or a
  `response.json()` failure leaves the state untouched and returns false;
* otherwise `self.auth_token = data.get("access_token")` runs first —
  overwriting the previous token even when the field is absent;
* the success path is guarded by `if self.auth_token:`, a Python
  truthiness test: both an absent field and an empty-string token fail
  it, leaving the overwritten value in place and returning false;
* on a truthy token, `save_token` runs before
  `self.token_expiry = time.time() + expires_in`; a raise inside
  `save_token` is caught by the same handler, so the expiry update and
  the `return True` are both skipped. -/
def refresh_access_token (s : AuthState) (env : RefreshEnv) :
    AuthState × Bool :=
  match env.http with
  | .transportError => (s, false)
  | .response status body =>
    if 400 ≤ status then (s, false)
    else
      match body with
      | none => (s, false)
      | some data =>
        let s1 : AuthState := { s with auth_token := data.access_token }
        if truthy data.access_token then
          let expires_in := data.expires_in.getD 3600
          if env.saveFails then (s1, false)
          else ({ s1 with token_expiry := env.now + expires_in }, true)
        else (s1, false)

/-- Embedding of `auth.py::ZohoAuth.ensure_valid_token`: refresh when
`time.time() > token_expiry - 300`, else return true.  The third
component counts how many refresh calls were made. -/
def ensure_valid_token (s : AuthState) (env : RefreshEnv) :
    AuthState × Bool × ℕ :=
  if env.now > s.token_expiry - 300 then
    let (s', ok) := refresh_access_token s env
    (s', ok, 1)
  else (s, true, 0)

/-! ## Constructor (`auth.py::ZohoAuth.__init__`)

After resolving the three credentials (argument `or` environment) and
raising `ValueError` when any is falsy, the constructor sets
`token_expiry = 0`, loads the cached token, and either adopts it with
the expiry read back from the token file or performs an immediate
refresh. -/

/-- Which required credential was missing (`ValueError` messages in
`__init__`). -/
inductive InitError where
  | missingRefreshToken
  | missingClientId
  | missingClientSecret
  deriving Repr, DecidableEq

/-- Oracle for one run of `ZohoAuth.__init__`: environment-variable
fallbacks, the result of `load_token()`, the `expires_at` read back from
the token file (`none` when that second read raises), and the oracle
for the immediate refresh when one happens. -/
structure InitEnv where
  envRefreshToken : Option String
  envClientId : Option String
  envClientSecret : Option String
  cached : Option String
  expiryRead : Option ℚ
  refreshEnv : RefreshEnv
  deriving Repr, DecidableEq

/-- Embedding of `auth.py::ZohoAuth.__init__` (credential checks and token
bootstrap).  `load_token()` never raises — failures degrade to `none`
— and `refresh_access_token` swallows all its exceptions, so after the
three credential checks no exception can escape. -/
def zohoAuthInit (refresh_token client_id client_secret : Option String)
    (env : InitEnv) : Except InitError AuthState :=
  let rt := pyOr refresh_token env.envRefreshToken
  let ci := pyOr client_id env.envClientId
  let cs := pyOr client_secret env.envClientSecret
  if ¬ truthy rt then .error .missingRefreshToken
  else if ¬ truthy ci then .error .missingClientId
  else if ¬ truthy cs then .error .missingClientSecret
  else
    let s0 : AuthState := { auth_token := env.cached, token_expiry := 0 }
    if ¬ truthy env.cached then
      .ok (refresh_access_token s0 env.refreshEnv).1
    else
      match env.expiryRead with
      | some e => .ok { s0 with token_expiry := e }
      | none => .ok (refresh_access_token s0 env.refreshEnv).1

/-! ## Resilient request executor (`client.py::ZohoClient.make_api_request`)

The executor is abstracted over an oracle giving the statuses of the
successive HTTP calls to the endpoint and the outcome of the (single
possible) forced refresh.  The trace records the surfaced outcome, the
number of HTTP calls made to the endpoint, and the number of forced
(401-triggered) refresh calls. -/

/-- How `make_api_request` terminates. -/
inductive ApiOutcome where
  | tokenUnavailable
  | authFailed
  | httpError (status : ℕ)
  | success (status : ℕ)
  deriving Repr, DecidableEq

/-- Oracle for one execution of `make_api_request`: the boolean result
of the initial `ensure_valid_token()`, the status returned by the n-th
HTTP call to the endpoint (0-indexed), and the boolean result of the
forced `refresh_access_token()` should one happen. -/
structure ApiEnv where
  ensureOk : Bool
  statuses : ℕ → ℕ
  refreshOk : Bool

/-- Observable trace of one execution of `make_api_request`. -/
structure ApiTrace where
  outcome : ApiOutcome
  httpCalls : ℕ
  refreshCalls : ℕ
  deriving Repr, DecidableEq

/-- Embedding of `client.py::ZohoClient.make_api_request`, line by line:
1. `ensure_valid_token()`; on false raise (`tokenUnavailable`);
2. first HTTP call;
3. on a 401: one forced `refresh_access_token()`; when it succeeds,
   retry the call exactly once, and the retry's response replaces the
   first one;
4. `response.raise_for_status()`: a status `>= 400` raises
   `HTTPStatusError`, caught below: a 401 becomes the
   authentication-failed `ValueError`, anything else is re-raised;
5. otherwise the response is returned. -/
def make_api_request (env : ApiEnv) : ApiTrace :=
  if ¬ env.ensureOk then ⟨.tokenUnavailable, 0, 0⟩
  else
    let s0 := env.statuses 0
    if s0 = 401 then
      if env.refreshOk then
        let s1 := env.statuses 1
        if s1 = 401 then ⟨.authFailed, 2, 1⟩
        else if 400 ≤ s1 then ⟨.httpError s1, 2, 1⟩
        else ⟨.success s1, 2, 1⟩
      else ⟨.authFailed, 1, 1⟩
    else if 400 ≤ s0 then ⟨.httpError s0, 1, 0⟩
    else ⟨.success s0, 1, 0⟩

/-! ## Items (`items.py::ItemClient`)

JSON records are modelled with `Option` fields for the `dict.get`
accesses the code performs.  Numeric stock values are rationals (the
upstream may send fractional numbers or numeric strings; the code
coerces with `int(float(x))`). -/

/-- One entry of an item's per-warehouse breakdown
(`item["warehouses"]`). -/
structure WarehouseStock where
  warehouse_id : Option String
  warehouse_available_stock : Option ℚ
  deriving Repr, DecidableEq

/-- An inventory item as the code reads it: `item.get("name")`,
`item.get("sku")`, `item.get("available_stock", 0)` and the optional
`"warehouses"` key (absent key is `none`, present-and-empty is
`some []`). -/
structure Item where
  name : Option String
  sku : Option String
  available_stock : Option ℚ
  warehouses : Option (List WarehouseStock)
  deriving Repr, DecidableEq

/-- Embedding of `items.py::ItemClient.get_item_by_sku` applied to the listing the
filtered `GET items?sku=` returned: first item whose `item.get("sku")`
equals `sku` (`None` never equals a string), else the empty dict
(`none`). -/
def get_item_by_sku (listing : List Item) (sku : String) : Option Item :=
  listing.find? (fun item => item.sku == some sku)

/-- Embedding of `items.py::ItemClient.get_item_by_name`, same scan on
`item.get("name")`. -/
def get_item_by_name (listing : List Item) (name : String) : Option Item :=
  listing.find? (fun item => item.name == some name)

/-- Embedding of `items.py::ItemClient.get_item_stock_by_id` applied to the item the
`GET items/{id}` returned.  `if location_id and "warehouses" in item:`
guards the scoped branch, so a falsy `location_id` or an absent
`"warehouses"` key falls through to the overall `available_stock`.
Inside the branch the first matching warehouse's
`int(float(warehouse.get("warehouse_available_stock", 0)))` is
returned, and `0` when no entry matches. -/
def get_item_stock (item : Item) (location_id : Option String) : ℤ :=
  match location_id, item.warehouses with
  | some lid, some whs =>
    if lid.isEmpty then trunc (item.available_stock.getD 0)
    else
      match whs.find? (fun w => w.warehouse_id == some lid) with
      | some w => trunc (w.warehouse_available_stock.getD 0)
      | none => 0
  | _, _ => trunc (item.available_stock.getD 0)

/-- The line-item payload of a `POST inventoryadjustments`
(`adjust_inventory_by_item_id` builds one line item; `warehouse_id` is
added only when `location_id` is truthy). -/
structure AdjustmentPayload where
  item_id : String
  quantity_adjusted : ℤ
  warehouse_id : Option String
  reason : String
  deriving Repr, DecidableEq

/-- A request issued by the item client, as far as the claims observe
them: the `GET items/{id}` reads and the `POST inventoryadjustments`
submissions. -/
inductive Req where
  | getItem (item_id : String)
  | postAdjustment (payload : AdjustmentPayload)
  deriving Repr, DecidableEq

/-- Number of `POST inventoryadjustments` requests in a trace. -/
def countPosts : List Req → ℕ
  | [] => 0
  | .getItem _ :: rest => countPosts rest
  | .postAdjustment _ :: rest => 1 + countPosts rest

/-- Oracle for the item client: the item returned by `GET items/{id}`
and the final status of the executor's `POST inventoryadjustments`
call (`>= 400` raises out of `make_api_request`). -/
structure ItemsEnv where
  item : Item
  postStatus : ℕ
  deriving Repr, DecidableEq

/-- Embedding of `items.py::ItemClient.adjust_inventory_by_item_id`: builds the
payload (adding `warehouse_id` only for a truthy `location_id`) and
submits it; a `>= 400` status raises out of the executor and nothing in
this function catches it. -/
def adjust_inventory_by_item_id (env : ItemsEnv) (item_id : String)
    (quantity : ℤ) (reason : String) (location_id : Option String) :
    Except ℕ AdjustmentPayload × List Req :=
  let payload : AdjustmentPayload :=
    { item_id := item_id
      quantity_adjusted := quantity
      warehouse_id := if truthy location_id then location_id else none
      reason := reason }
  if 400 ≤ env.postStatus then (.error env.postStatus, [.postAdjustment payload])
  else (.ok payload, [.postAdjustment payload])

/-- Result of `override_item_stock_by_id`: either the warning dict
`{"warning": ..., "current_quantity": current}` or the upstream
adjustment record. -/
inductive OverrideResult where
  | noop (current_quantity : ℤ)
  | adjusted (payload : AdjustmentPayload)
  deriving Repr, DecidableEq

/-- Embedding of `items.py::ItemClient.override_item_stock_by_id`: read the current
quantity, compute `adjustment = target - current`; when zero, log (and
for a truthy `location_id` fetch the item once more for debugging) and
return the warning dict without submitting; otherwise submit exactly
one adjustment.  There is no exception handler anywhere in this
function: an error raised by the adjustment call propagates. -/
def override_item_stock_by_id (env : ItemsEnv) (item_id : String)
    (target_quantity : ℤ) (reason : String) (location_id : Option String) :
    Except ℕ OverrideResult × List Req :=
  let current := get_item_stock env.item location_id
  let adjustment := target_quantity - current
  if adjustment = 0 then
    let dbg : List Req := if truthy location_id then [.getItem item_id] else []
    (.ok (.noop current), .getItem item_id :: dbg)
  else
    let (r, reqs) :=
      adjust_inventory_by_item_id env item_id adjustment reason location_id
    (r.map .adjusted, .getItem item_id :: reqs)

/-! ## Warehouses (`warehouses.py::WarehouseClient`) -/

/-- A warehouse as the code reads it: `warehouse.get("warehouse_name",
"(unnamed)")` and `warehouse.get("warehouse_id")`. -/
structure Warehouse where
  warehouse_id : Option String
  warehouse_name : Option String
  deriving Repr, DecidableEq

/-- Embedding of `warehouses.py::WarehouseClient.get_warehouse_by_name` applied to
the full listing: first warehouse whose
`warehouse.get("warehouse_name", "(unnamed)")` equals `name`, else the
empty dict (`none`).  An entry with no `warehouse_name` key is compared
through the `"(unnamed)"` default. -/
def get_warehouse_by_name (warehouses : List Warehouse) (name : String) :
    Option Warehouse :=
  warehouses.find? (fun w => w.warehouse_name.getD "(unnamed)" == name)

/-! ## Upstream adjustment semantics (for the idempotence claim)

The repository never applies an adjustment itself; the upstream
inventory service does.  The following definitions model that external
effect so that two successive override calls can be chained. -/

/-- The raw (pre-truncation) value that the scoped stock read looks at
inside an item's per-warehouse breakdown: the first entry whose
`warehouse_id` matches, defaulting to `0`. -/
def rawStockList (whs : List WarehouseStock) (lid : String) : ℚ :=
  match whs.find? (fun w => w.warehouse_id == some lid) with
  | some w => w.warehouse_available_stock.getD 0
  | none => 0

/-- The raw (pre-truncation) value that `get_item_stock` reads, before
the `int(float(...))` coercion. -/
def rawStock (item : Item) (location_id : Option String) : ℚ :=
  match location_id, item.warehouses with
  | some lid, some whs =>
    if lid.isEmpty then item.available_stock.getD 0
    else rawStockList whs lid
  | _, _ => item.available_stock.getD 0

theorem trunc_zero : trunc 0 = 0 := by
  rw [show ((0 : ℚ)) = ((0 : ℤ) : ℚ) by norm_num, trunc_intCast]

theorem get_item_stock_eq_trunc_rawStock (item : Item)
    (location_id : Option String) :
    get_item_stock item location_id = trunc (rawStock item location_id) := by
  rcases location_id with _ | lid
  · rfl
  rcases hws : item.warehouses with _ | whs
  · simp [get_item_stock, rawStock, hws]
  by_cases he : lid.isEmpty
  · simp [get_item_stock, rawStock, hws, he]
  · simp only [get_item_stock, rawStock, hws, he, Bool.false_eq_true,
      if_false]
    rcases hf : whs.find? (fun w => w.warehouse_id == some lid) with _ | w
    · simp [rawStockList, hf, trunc_zero]
    · simp [rawStockList, hf]

/-- Modelled from the spec: the upstream adjustment operation "changes
stock by a signed delta".  Applying a submitted line item inside a
warehouse breakdown adds the delta to the first entry with the matching
id, or records the delta in a fresh entry when the warehouse was not
listed yet (the upstream API represents zero stock by omission). -/
def updateWarehouseStock : List WarehouseStock → String → ℚ →
    List WarehouseStock
  | [], lid, d => [⟨some lid, some d⟩]
  | e :: rest, lid, d =>
    if e.warehouse_id == some lid then
      { e with
        warehouse_available_stock :=
          some (e.warehouse_available_stock.getD 0 + d) } :: rest
    else e :: updateWarehouseStock rest lid d

/-- Modelled from the spec: the effect of one accepted
`POST inventoryadjustments` on the item, per the glossary entry
"Adjustment: upstream operation that changes stock by a signed delta".
The overall `available_stock` moves by the delta, and a
warehouse-scoped line item also moves that warehouse's entry. -/
def applyAdjustment (item : Item) (p : AdjustmentPayload) : Item :=
  let item1 : Item :=
    { item with
      available_stock :=
        some (item.available_stock.getD 0 + p.quantity_adjusted) }
  match p.warehouse_id, item.warehouses with
  | some lid, some whs =>
    { item1 with
      warehouses := some (updateWarehouseStock whs lid p.quantity_adjusted) }
  | _, _ => item1

/-- Modelled from the spec: the upstream state after the adjustments of
a request trace have been accepted (reads have no effect). -/
def applyTrace (item : Item) : List Req → Item
  | [] => item
  | .getItem _ :: rest => applyTrace item rest
  | .postAdjustment p :: rest => applyTrace (applyAdjustment item p) rest

theorem rawStockList_update (whs : List WarehouseStock) (lid : String)
    (d : ℚ) :
    rawStockList (updateWarehouseStock whs lid d) lid =
      rawStockList whs lid + d := by
  induction whs with
  | nil =>
    simp [updateWarehouseStock, rawStockList, List.find?]
  | cons e rest ih =>
    by_cases he : (e.warehouse_id == some lid) = true
    · simp [updateWarehouseStock, rawStockList, List.find?, he]
    · simp only [updateWarehouseStock, he, if_false]
      simp only [rawStockList, List.find?, he] at ih ⊢
      exact ih

/-- The scoped raw stock moves by exactly the submitted delta when the
payload's warehouse scope is the one the read uses (which is how
`override_item_stock_by_id` builds its payload). -/
theorem rawStock_applyAdjustment (item : Item) (p : AdjustmentPayload)
    (loc : Option String)
    (hscope : p.warehouse_id = if truthy loc then loc else none) :
    rawStock (applyAdjustment item p) loc =
      rawStock item loc + p.quantity_adjusted := by
  rcases loc with _ | lid
  · have hw : p.warehouse_id = none := by simpa [truthy] using hscope
    rcases hws : item.warehouses with _ | whs <;>
      simp [applyAdjustment, rawStock, hw, hws]
  by_cases he : lid.isEmpty
  · have hw : p.warehouse_id = none := by
      simpa [truthy, he] using hscope
    rcases hws : item.warehouses with _ | whs <;>
      simp [applyAdjustment, rawStock, hw, hws, he]
  · have he' : lid.isEmpty = false := by simpa using he
    have hw : p.warehouse_id = some lid := by
      simpa [truthy, he'] using hscope
    rcases hws : item.warehouses with _ | whs
    · simp [applyAdjustment, rawStock, hw, hws, he']
    · simp [applyAdjustment, rawStock, hw, hws, he', rawStockList_update]

/-! ## Theorems for the claims -/

/-- C1: for every API request whose first attempt returns HTTP 401, the
executor performs exactly one forced token refresh, attempts at most 2
HTTP calls to the endpoint, and when the refresh fails or the retried
call is again a 401 it surfaces exactly the authentication-failed error
with no further retry. -/
theorem C1_single_retry_on_401 (env : ApiEnv)
    (hok : env.ensureOk = true) (h401 : env.statuses 0 = 401) :
    (make_api_request env).refreshCalls = 1 ∧
    (make_api_request env).httpCalls ≤ 2 ∧
    ((env.refreshOk = false ∨ env.statuses 1 = 401) →
      (make_api_request env).outcome = .authFailed) := by
  cases hr : env.refreshOk with
  | false => simp [make_api_request, hok, h401, hr]
  | true =>
    by_cases h1 : env.statuses 1 = 401
    · simp [make_api_request, hok, h401, hr, h1]
    · by_cases h4 : 400 ≤ env.statuses 1 <;>
        simp [make_api_request, hok, h401, hr, h1, h4]

/-- Witness for C1: both the first call and the retry return 401. -/
theorem C1_single_retry_on_401_witness :
    (make_api_request ⟨true, fun _ => 401, true⟩).refreshCalls = 1 ∧
    (make_api_request ⟨true, fun _ => 401, true⟩).httpCalls ≤ 2 ∧
    (((⟨true, fun _ => 401, true⟩ : ApiEnv).refreshOk = false ∨
        (⟨true, fun _ => 401, true⟩ : ApiEnv).statuses 1 = 401) →
      (make_api_request ⟨true, fun _ => 401, true⟩).outcome = .authFailed) :=
  C1_single_retry_on_401 ⟨true, fun _ => 401, true⟩ rfl rfl

/-- C2 counterexample: a 2xx refresh response whose body lacks
`access_token` makes `refresh_access_token` return false, but it
overwrites the previously held in-memory token with null instead of
leaving it in place as the claim states. -/
theorem C2_counterexample :
    (refresh_access_token ⟨some "old", 1000⟩
        ⟨.response 200 (some ⟨none, none⟩), false, 2000⟩).2 = false ∧
    (refresh_access_token ⟨some "old", 1000⟩
        ⟨.response 200 (some ⟨none, none⟩), false, 2000⟩).1.auth_token
      ≠ some "old" := by
  refine ⟨rfl, ?_⟩
  intro h
  simp [refresh_access_token, truthy] at h

/-- C2 (amended): every listed refresh failure returns false; a
transport error, a non-2xx response or an unparsable body leaves the
whole state unchanged, while a 2xx body lacking the access_token field
leaves the expiry unchanged but overwrites the in-memory token with
null. -/
theorem C2_refresh_failure_modes (s : AuthState) (env : RefreshEnv) :
    (env.http = .transportError → refresh_access_token s env = (s, false)) ∧
    (∀ st b, env.http = .response st b → 400 ≤ st →
      refresh_access_token s env = (s, false)) ∧
    (∀ st, env.http = .response st none →
      refresh_access_token s env = (s, false)) ∧
    (∀ st data, env.http = .response st (some data) → st < 400 →
      data.access_token = none →
      refresh_access_token s env = ({ s with auth_token := none }, false)) := by
  refine ⟨?_, ?_, ?_, ?_⟩
  · intro h
    simp [refresh_access_token, h]
  · intro st b h h4
    simp [refresh_access_token, h, h4]
  · intro st h
    by_cases h4 : 400 ≤ st <;> simp [refresh_access_token, h, h4]
  · intro st data h h4 htok
    have h4' : ¬ 400 ≤ st := by omega
    simp [refresh_access_token, h, h4', htok, truthy]

/-- Witness for C2 (amended): a 2xx response with no access_token field
nulls the token and fails. -/
theorem C2_refresh_failure_modes_witness :
    refresh_access_token ⟨some "old", 7⟩
        ⟨.response 200 (some ⟨none, none⟩), false, 9⟩ =
      (⟨none, 7⟩, false) :=
  (C2_refresh_failure_modes ⟨some "old", 7⟩
      ⟨.response 200 (some ⟨none, none⟩), false, 9⟩).2.2.2
    200 ⟨none, none⟩ rfl (by norm_num) rfl

/-- C4 counterexample: with `expires_at = now + 300` exactly (inside
the claimed `expires_at <= now + 300` refresh region),
`ensure_valid_token` performs zero refresh calls and returns true,
because the code tests `time.time() > token_expiry - 300` strictly. -/
theorem C4_counterexample :
    (⟨some "tok", 300⟩ : AuthState).token_expiry ≤ (0 : ℚ) + 300 ∧
    (ensure_valid_token ⟨some "tok", 300⟩ ⟨.transportError, false, 0⟩).2.2
      = 0 ∧
    (ensure_valid_token ⟨some "tok", 300⟩ ⟨.transportError, false, 0⟩).2.1
      = true := by
  have hnot : ¬ ((0 : ℚ) > (300 : ℚ) - 300) := by norm_num
  refine ⟨by norm_num, ?_, ?_⟩ <;>
    simp [ensure_valid_token, hnot]

/-- C4 (amended): `ensure_valid_token` returns true with no refresh
call exactly when `expires_at >= now + 300`, and performs exactly one
refresh call (whose result it returns) when `expires_at < now + 300`
strictly. -/
theorem C4_refresh_margin (s : AuthState) (env : RefreshEnv) :
    (env.now + 300 ≤ s.token_expiry →
      ensure_valid_token s env = (s, true, 0)) ∧
    (s.token_expiry < env.now + 300 →
      ensure_valid_token s env =
        ((refresh_access_token s env).1,
          (refresh_access_token s env).2, 1)) := by
  constructor
  · intro h
    have hnot : ¬ env.now > s.token_expiry - 300 := by linarith
    simp [ensure_valid_token, hnot]
  · intro h
    have hgt : env.now > s.token_expiry - 300 := by linarith
    simp [ensure_valid_token, hgt]

/-- Witness for C4 (amended): a token far from expiry is used without
any refresh call. -/
theorem C4_refresh_margin_witness :
    ensure_valid_token ⟨some "tok", 400⟩ ⟨.transportError, false, 0⟩ =
      (⟨some "tok", 400⟩, true, 0) :=
  (C4_refresh_margin ⟨some "tok", 400⟩
      ⟨.transportError, false, 0⟩).1 (by norm_num)

/-- C5 counterexample: the OAuth exchange succeeds and returns a new
access token, but the token-file write raises; `refresh_access_token`
then returns false and leaves the expiry at its old value (only the
in-memory token was already overwritten), contradicting the claim that
it updates the expiry and reports success. -/
theorem C5_counterexample :
    (refresh_access_token ⟨none, 0⟩
        ⟨.response 200 (some ⟨some "new", some 3600⟩), true, 50⟩).2
      = false ∧
    (refresh_access_token ⟨none, 0⟩
        ⟨.response 200 (some ⟨some "new", some 3600⟩), true, 50⟩).1.token_expiry
      = 0 ∧
    (refresh_access_token ⟨none, 0⟩
        ⟨.response 200 (some ⟨some "new", some 3600⟩), true, 50⟩).1.auth_token
      = some "new" :=
  ⟨rfl, rfl, rfl⟩

/-- C5 (amended): when the exchange succeeds with an access_token but
persisting it raises, the refresh still adopts the new token in memory
but reports failure (returns false) and does not update the in-memory
expiry. -/
theorem C5_save_failure_aborts (s : AuthState) (env : RefreshEnv)
    (st : ℕ) (data : RefreshBody) (tok : String)
    (hresp : env.http = .response st (some data)) (hst : st < 400)
    (htok : data.access_token = some tok) (hsave : env.saveFails = true) :
    refresh_access_token s env = ({ s with auth_token := some tok }, false) := by
  have h4 : ¬ 400 ≤ st := by omega
  by_cases ht : truthy (some tok) = true
  · simp [refresh_access_token, hresp, h4, htok, ht, hsave]
  · simp [refresh_access_token, hresp, h4, htok, ht]

/-- Witness for C5 (amended). -/
theorem C5_save_failure_aborts_witness :
    refresh_access_token ⟨some "old", 11⟩
        ⟨.response 200 (some ⟨some "new", some 3600⟩), true, 50⟩ =
      (⟨some "new", 11⟩, false) :=
  C5_save_failure_aborts ⟨some "old", 11⟩
    ⟨.response 200 (some ⟨some "new", some 3600⟩), true, 50⟩
    200 ⟨some "new", some 3600⟩ "new" rfl (by norm_num) rfl rfl

/-- C3: when the computed delta is zero, the override returns the
warning no-op carrying the current quantity and the trace contains zero
POSTs to the adjustments endpoint; when the delta is non-zero, the
trace contains exactly one POST whose quantity_adjusted is target minus
current, with the warehouse id included exactly when scoped. -/
theorem C3_override_delta (env : ItemsEnv) (item_id : String)
    (target : ℤ) (reason : String) (loc : Option String) :
    (target - get_item_stock env.item loc = 0 →
      (override_item_stock_by_id env item_id target reason loc).1 =
        .ok (.noop (get_item_stock env.item loc)) ∧
      countPosts
        (override_item_stock_by_id env item_id target reason loc).2 = 0) ∧
    (target - get_item_stock env.item loc ≠ 0 →
      countPosts
        (override_item_stock_by_id env item_id target reason loc).2 = 1 ∧
      ∀ p, Req.postAdjustment p ∈
          (override_item_stock_by_id env item_id target reason loc).2 →
        p.item_id = item_id ∧
        p.quantity_adjusted = target - get_item_stock env.item loc ∧
        p.warehouse_id = (if truthy loc then loc else none)) := by
  constructor
  · intro h
    by_cases ht : truthy loc <;>
      simp [override_item_stock_by_id, h, ht, countPosts]
  · intro h
    by_cases h4 : 400 ≤ env.postStatus <;>
      simp [override_item_stock_by_id, adjust_inventory_by_item_id, h, h4,
        countPosts]

/-- Witness for C3: target 15 over current 10 posts exactly one
adjustment of +5 (the spec's own scenario). -/
theorem C3_override_delta_witness :
    countPosts
      (override_item_stock_by_id ⟨⟨none, none, some 10, none⟩, 200⟩
        "42" 15 "r" none).2 = 1 ∧
    ∀ p, Req.postAdjustment p ∈
        (override_item_stock_by_id ⟨⟨none, none, some 10, none⟩, 200⟩
          "42" 15 "r" none).2 →
      p.item_id = "42" ∧
      p.quantity_adjusted =
        15 - get_item_stock (⟨none, none, some 10, none⟩ : Item) none ∧
      p.warehouse_id = (if truthy none then none else none) :=
  (C3_override_delta ⟨⟨none, none, some 10, none⟩, 200⟩ "42" 15 "r" none).2
    (by
      rw [get_item_stock_eq_trunc_rawStock,
        show rawStock (⟨none, none, some 10, none⟩ : Item) none =
          ((10 : ℤ) : ℚ) by norm_num [rawStock], trunc_intCast]
      norm_num)

/-- C6 counterexample: a 400 from the adjustments endpoint reaching the
override call at a concrete input (current 10, target 15) propagates as
an error; nothing catches it and reinterprets it as the successful
no-op the claim demands. -/
theorem C6_counterexample :
    (override_item_stock_by_id ⟨⟨none, none, some 10, none⟩, 400⟩
        "42" 15 "r" none).1 = .error 400 := by
  have h10 : get_item_stock (⟨none, none, some 10, none⟩ : Item) none
      = 10 := by
    rw [get_item_stock_eq_trunc_rawStock,
      show rawStock (⟨none, none, some 10, none⟩ : Item) none =
        ((10 : ℤ) : ℚ) by norm_num [rawStock], trunc_intCast]
  have hne : (15 : ℤ) - get_item_stock (⟨none, none, some 10, none⟩ : Item)
      none ≠ 0 := by rw [h10]; norm_num
  simp [override_item_stock_by_id, adjust_inventory_by_item_id, hne,
    Except.map]

/-- C6 (amended): the override never submits a zero-quantity adjustment
(the delta pre-check prevents the upstream zero-adjustment 400 from
arising), and it contains no handler for adjustment errors: a 400 final
status on the POST propagates to the caller as a failure rather than
being reinterpreted as a no-op. -/
theorem C6_error_propagation (env : ItemsEnv) (item_id : String)
    (target : ℤ) (reason : String) (loc : Option String) :
    (∀ p, Req.postAdjustment p ∈
        (override_item_stock_by_id env item_id target reason loc).2 →
      p.quantity_adjusted ≠ 0) ∧
    (400 ≤ env.postStatus → target - get_item_stock env.item loc ≠ 0 →
      (override_item_stock_by_id env item_id target reason loc).1 =
        .error env.postStatus) := by
  constructor
  · intro p hp
    by_cases h : target - get_item_stock env.item loc = 0
    · by_cases ht : truthy loc <;>
        simp [override_item_stock_by_id, h, ht] at hp
    · by_cases h4 : 400 ≤ env.postStatus <;>
        [skip; skip] <;>
        · simp [override_item_stock_by_id, adjust_inventory_by_item_id,
            h, h4] at hp
          rw [hp]
          exact h
  · intro h4 h
    simp [override_item_stock_by_id, adjust_inventory_by_item_id, h, h4,
      Except.map]

/-- Witness for C6 (amended): the concrete propagated 400. -/
theorem C6_error_propagation_witness :
    (override_item_stock_by_id ⟨⟨none, none, some 7, none⟩, 400⟩
        "9" 8 "r" none).1 = .error 400 :=
  (C6_error_propagation ⟨⟨none, none, some 7, none⟩, 400⟩ "9" 8 "r"
      none).2 (by norm_num)
    (by
      rw [get_item_stock_eq_trunc_rawStock,
        show rawStock (⟨none, none, some 7, none⟩ : Item) none =
          ((7 : ℤ) : ℚ) by norm_num [rawStock], trunc_intCast]
      norm_num)

/-- C7 counterexample: an item carrying an overall available_stock of 7
but no per-warehouse breakdown at all (no warehouses key) is read with
a warehouse id; the id appears in no breakdown, yet the code falls back
to the overall stock and returns 7, not the 0 the claim requires. -/
theorem C7_counterexample :
    get_item_stock ⟨none, none, some 7, none⟩ (some "wh-1") = 7 ∧
    (7 : ℤ) ≠ 0 := by
  refine ⟨?_, by norm_num⟩
  rw [get_item_stock_eq_trunc_rawStock,
    show rawStock (⟨none, none, some 7, none⟩ : Item) (some "wh-1") =
      ((7 : ℤ) : ℚ) by norm_num [rawStock], trunc_intCast]

/-- C7 (amended): with a warehouse id and a present breakdown, the read
returns the first matching warehouse's available stock truncated toward
zero and 0 when no entry matches; when the breakdown key is absent, or
when no warehouse id is given, it returns the overall available stock
truncated toward zero. -/
theorem C7_scoped_read (item : Item) (lid : String)
    (hl : lid.isEmpty = false) :
    (∀ whs, item.warehouses = some whs →
      ((∀ w ∈ whs, w.warehouse_id ≠ some lid) →
        get_item_stock item (some lid) = 0) ∧
      ((∃ w ∈ whs, w.warehouse_id = some lid) →
        ∃ w ∈ whs, w.warehouse_id = some lid ∧
          get_item_stock item (some lid) =
            trunc (w.warehouse_available_stock.getD 0))) ∧
    (item.warehouses = none →
      get_item_stock item (some lid) =
        trunc (item.available_stock.getD 0)) ∧
    get_item_stock item none = trunc (item.available_stock.getD 0) := by
  refine ⟨?_, ?_, ?_⟩
  · intro whs hws
    constructor
    · intro hnone
      have hf : whs.find? (fun w => w.warehouse_id == some lid) = none :=
        List.find?_eq_none.mpr (fun w hw => by
          simpa using hnone w hw)
      simp [get_item_stock, hws, hl, hf]
    · intro hex
      rcases hf : whs.find? (fun w => w.warehouse_id == some lid)
        with _ | w
      · exfalso
        obtain ⟨w, hw, hid⟩ := hex
        exact absurd (by simpa using hid)
          (List.find?_eq_none.mp hf w hw)
      · refine ⟨w, List.mem_of_find?_eq_some hf, ?_, ?_⟩
        · simpa using List.find?_some hf
        · simp [get_item_stock, hws, hl, hf]
  · intro hws
    simp [get_item_stock, hws]
  · rcases item.warehouses with _ | whs <;> rfl

/-- Witness for C7 (amended): the spec's scenario — breakdown lists
only wh-2, reading wh-1 gives 0. -/
theorem C7_scoped_read_witness :
    get_item_stock
      ⟨none, none, some 99, some [⟨some "wh-2", some 5⟩]⟩
      (some "wh-1") = 0 :=
  ((C7_scoped_read
      ⟨none, none, some 99, some [⟨some "wh-2", some 5⟩]⟩ "wh-1"
      rfl).1 [⟨some "wh-2", some 5⟩] rfl).1
    (by
      intro w hw
      simp at hw
      rw [hw]
      simp)

/-- C8 counterexample: a warehouse record with no warehouse_name field
does not match the query string by the field, yet the by-name
resolution returns it for the query "(unnamed)" — the comparison goes
through the `get` default, not the field itself — so the resolution is
not an exact comparison of the respective field. -/
theorem C8_counterexample :
    (⟨some "w1", none⟩ : Warehouse).warehouse_name ≠ some "(unnamed)" ∧
    get_warehouse_by_name [⟨some "w1", none⟩] "(unnamed)" =
      some ⟨some "w1", none⟩ := by
  refine ⟨by simp, ?_⟩
  simp [get_warehouse_by_name, List.find?]

/-- C8 (amended): item resolution by SKU compares the sku field exactly
and case-sensitively (an absent field never matches) and returns absent
when no element matches; warehouse resolution does the same on the
warehouse_name field except that records lacking the field are compared
as the literal "(unnamed)"; whenever a match exists, a matching element
is returned. -/
theorem C8_exact_match_resolution (listing : List Item)
    (ws : List Warehouse) (sku name : String) :
    ((∀ i ∈ listing, i.sku ≠ some sku) →
      get_item_by_sku listing sku = none) ∧
    ((∃ i ∈ listing, i.sku = some sku) →
      ∃ i, get_item_by_sku listing sku = some i ∧ i ∈ listing ∧
        i.sku = some sku) ∧
    ((∀ w ∈ ws, w.warehouse_name.getD "(unnamed)" ≠ name) →
      get_warehouse_by_name ws name = none) ∧
    ((∃ w ∈ ws, w.warehouse_name.getD "(unnamed)" = name) →
      ∃ w, get_warehouse_by_name ws name = some w ∧ w ∈ ws ∧
        w.warehouse_name.getD "(unnamed)" = name) := by
  refine ⟨?_, ?_, ?_, ?_⟩
  · intro hnone
    exact List.find?_eq_none.mpr (fun i hi => by
      simpa using hnone i hi)
  · intro hex
    rcases hf : listing.find? (fun i => i.sku == some sku) with _ | i
    · exfalso
      obtain ⟨i, hi, hsku⟩ := hex
      exact absurd (by simpa using hsku) (List.find?_eq_none.mp hf i hi)
    · exact ⟨i, hf, List.mem_of_find?_eq_some hf,
        by simpa using List.find?_some hf⟩
  · intro hnone
    exact List.find?_eq_none.mpr (fun w hw => by
      simpa using hnone w hw)
  · intro hex
    rcases hf : ws.find? (fun w => w.warehouse_name.getD "(unnamed)" == name)
      with _ | w
    · exfalso
      obtain ⟨w, hw, hname⟩ := hex
      exact absurd (by simpa using hname) (List.find?_eq_none.mp hf w hw)
    · exact ⟨w, hf, List.mem_of_find?_eq_some hf,
        by simpa using List.find?_some hf⟩

/-- Witness for C8 (amended): the spec's scenario — the Widget item is
found by its exact SKU. -/
theorem C8_exact_match_resolution_witness :
    ∃ i, get_item_by_sku [⟨some "Widget", some "W-1", some 10, none⟩]
        "W-1" = some i ∧
      i ∈ [(⟨some "Widget", some "W-1", some 10, none⟩ : Item)] ∧
      i.sku = some "W-1" :=
  (C8_exact_match_resolution
      [⟨some "Widget", some "W-1", some 10, none⟩] [] "W-1" "x").2.1
    ⟨⟨some "Widget", some "W-1", some 10, none⟩, by simp, rfl⟩

/-- C9: starting from an item whose raw stored quantity is integral,
running the override to target Q and letting the upstream apply the
submitted adjustments (a signed-delta move of the scoped stock) leaves
the scoped read at exactly Q, so a second override to the same Q
computes delta 0, returns the warning no-op, and submits nothing. -/
theorem C9_override_idempotent (item : Item) (item_id : String) (Q : ℤ)
    (reason : String) (loc : Option String)
    (hint : ∃ n : ℤ, rawStock item loc = (n : ℚ)) :
    get_item_stock
        (applyTrace item
          (override_item_stock_by_id ⟨item, 200⟩ item_id Q reason loc).2)
        loc = Q ∧
    (override_item_stock_by_id
        ⟨applyTrace item
          (override_item_stock_by_id ⟨item, 200⟩ item_id Q reason loc).2,
          200⟩
        item_id Q reason loc).1 = .ok (.noop Q) ∧
    countPosts
      (override_item_stock_by_id
        ⟨applyTrace item
          (override_item_stock_by_id ⟨item, 200⟩ item_id Q reason loc).2,
          200⟩
        item_id Q reason loc).2 = 0 := by
  obtain ⟨n, hn⟩ := hint
  have hcur : get_item_stock item loc = n := by
    rw [get_item_stock_eq_trunc_rawStock, hn, trunc_intCast]
  by_cases h : Q - n = 0
  · have hfirst :
        (override_item_stock_by_id ⟨item, 200⟩ item_id Q reason loc).2 =
          .getItem item_id ::
            (if truthy loc then [.getItem item_id] else []) := by
      simp [override_item_stock_by_id, hcur, h]
    have happly :
        applyTrace item
          (override_item_stock_by_id ⟨item, 200⟩ item_id Q reason loc).2 =
          item := by
      rw [hfirst]
      by_cases ht : truthy loc <;> simp [applyTrace, ht]
    have hQ : get_item_stock item loc = Q := by omega
    rw [happly]
    refine ⟨hQ, ?_, ?_⟩ <;>
      by_cases ht : truthy loc <;>
        simp [override_item_stock_by_id, hQ, ht, countPosts]
  · have hfirst :
        (override_item_stock_by_id ⟨item, 200⟩ item_id Q reason loc).2 =
          [.getItem item_id,
            .postAdjustment
              ⟨item_id, Q - n, if truthy loc then loc else none, reason⟩] := by
      simp [override_item_stock_by_id, adjust_inventory_by_item_id, hcur, h]
    have happly :
        applyTrace item
          (override_item_stock_by_id ⟨item, 200⟩ item_id Q reason loc).2 =
          applyAdjustment item
            ⟨item_id, Q - n, if truthy loc then loc else none, reason⟩ := by
      rw [hfirst]
      simp [applyTrace]
    have hraw :
        rawStock
          (applyAdjustment item
            ⟨item_id, Q - n, if truthy loc then loc else none, reason⟩)
          loc = ((Q : ℤ) : ℚ) := by
      rw [rawStock_applyAdjustment _ _ _ rfl, hn]
      push_cast
      ring
    have hget :
        get_item_stock
          (applyAdjustment item
            ⟨item_id, Q - n, if truthy loc then loc else none, reason⟩)
          loc = Q := by
      rw [get_item_stock_eq_trunc_rawStock, hraw, trunc_intCast]
    rw [happly]
    set p : AdjustmentPayload :=
      ⟨item_id, Q - n, if truthy loc then loc else none, reason⟩ with hp
    have hzero1 :
        (override_item_stock_by_id ⟨applyAdjustment item p, 200⟩
          item_id Q reason loc).1 = .ok (.noop Q) := by
      simp [override_item_stock_by_id, hget]
    have hzero2 :
        countPosts
          (override_item_stock_by_id ⟨applyAdjustment item p, 200⟩
            item_id Q reason loc).2 = 0 := by
      by_cases ht : truthy loc <;>
        simp [override_item_stock_by_id, hget, ht, countPosts]
    exact ⟨hget, hzero1, hzero2⟩

/-- Witness for C9: integral overall stock 10, target 15. -/
theorem C9_override_idempotent_witness :
    get_item_stock
        (applyTrace (⟨none, none, some 10, none⟩ : Item)
          (override_item_stock_by_id ⟨⟨none, none, some 10, none⟩, 200⟩
            "42" 15 "r" none).2)
        none = 15 ∧
    (override_item_stock_by_id
        ⟨applyTrace (⟨none, none, some 10, none⟩ : Item)
          (override_item_stock_by_id ⟨⟨none, none, some 10, none⟩, 200⟩
            "42" 15 "r" none).2, 200⟩
        "42" 15 "r" none).1 = .ok (.noop 15) ∧
    countPosts
      (override_item_stock_by_id
        ⟨applyTrace (⟨none, none, some 10, none⟩ : Item)
          (override_item_stock_by_id ⟨⟨none, none, some 10, none⟩, 200⟩
            "42" 15 "r" none).2, 200⟩
        "42" 15 "r" none).2 = 0 :=
  C9_override_idempotent ⟨none, none, some 10, none⟩ "42" 15 "r" none
    ⟨10, by norm_num [rawStock]⟩

/-- A failed refresh never moves the expiry. -/
theorem refresh_failed_expiry (s : AuthState) (env : RefreshEnv)
    (h : (refresh_access_token s env).2 = false) :
    (refresh_access_token s env).1.token_expiry = s.token_expiry := by
  rcases henv : env.http with _ | ⟨st, b⟩
  · simp [refresh_access_token, henv]
  · by_cases h4 : 400 ≤ st
    · simp [refresh_access_token, henv, h4]
    · rcases b with _ | data
      · simp [refresh_access_token, henv, h4]
      · by_cases ht : truthy data.access_token = true
        · cases hsv : env.saveFails with
          | true => simp [refresh_access_token, henv, h4, ht, hsv]
          | false =>
            simp [refresh_access_token, henv, h4, ht, hsv] at h
        · simp [refresh_access_token, henv, h4, ht]

/-- After a failed refresh from a token-less state the in-memory token
is null, unless the 2xx body carried an access_token value that the
code rejected for being falsy (an empty string or absent, the latter
also null) or whose persistence write raised: then that value stands. -/
theorem refresh_failed_token_cases (s : AuthState) (env : RefreshEnv)
    (h : (refresh_access_token s env).2 = false)
    (hs : s.auth_token = none) :
    (refresh_access_token s env).1.auth_token = none ∨
    ∃ st data, env.http = .response st (some data) ∧ st < 400 ∧
      (refresh_access_token s env).1.auth_token = data.access_token ∧
      (truthy data.access_token = false ∨ env.saveFails = true) := by
  rcases henv : env.http with _ | ⟨st, b⟩
  · exact .inl (by simp [refresh_access_token, henv, hs])
  · by_cases h4 : 400 ≤ st
    · exact .inl (by simp [refresh_access_token, henv, h4, hs])
    · rcases b with _ | data
      · exact .inl (by simp [refresh_access_token, henv, h4, hs])
      · by_cases ht : truthy data.access_token = true
        · cases hsv : env.saveFails with
          | true =>
            exact .inr ⟨st, data, rfl, by omega,
              by simp [refresh_access_token, henv, h4, ht, hsv],
              .inr rfl⟩
          | false =>
            simp [refresh_access_token, henv, h4, ht, hsv] at h
        · exact .inr ⟨st, data, rfl, by omega,
            by simp [refresh_access_token, henv, h4, ht],
            .inl (by simpa using ht)⟩

/-- C10 counterexample: with all three credentials present and no
cached token, two failing initial refreshes leave a non-null token in
the constructed object: one that obtained a token but failed to persist
it, and one whose 2xx body carried an empty-string access_token (falsy
for `if self.auth_token:`, so the code returns false after the
assignment already happened).  Both contradict the claim's null access
token. -/
theorem C10_counterexample :
    (refresh_access_token ⟨none, 0⟩
        ⟨.response 200 (some ⟨some "tok", some 3600⟩), true, 50⟩).2
      = false ∧
    zohoAuthInit (some "rt") (some "ci") (some "cs")
        ⟨none, none, none, none, none,
          ⟨.response 200 (some ⟨some "tok", some 3600⟩), true, 50⟩⟩ =
      .ok ⟨some "tok", 0⟩ ∧
    (refresh_access_token ⟨none, 0⟩
        ⟨.response 200 (some ⟨some "", some 3600⟩), false, 50⟩).2
      = false ∧
    zohoAuthInit (some "rt") (some "ci") (some "cs")
        ⟨none, none, none, none, none,
          ⟨.response 200 (some ⟨some "", some 3600⟩), false, 50⟩⟩ =
      .ok ⟨some "", 0⟩ ∧
    (some "tok" : Option String) ≠ none ∧
    (some "" : Option String) ≠ none := by
  refine ⟨rfl, ?_, rfl, ?_, by simp, by simp⟩ <;> rfl

/-- C10 (amended): construction fails exactly on the first missing
credential; with all three present it always succeeds, and when no
cached token exists and the immediate refresh fails the object carries
expiry 0; its access token can only be non-null when the failed refresh
received a parsed 2xx body, whose access_token value then stands — the
code having rejected it as falsy (empty string) or having failed to
persist it. -/
theorem C10_construction_total (rt ci cs : Option String)
    (env : InitEnv) :
    (¬ truthy (pyOr rt env.envRefreshToken) →
      zohoAuthInit rt ci cs env = .error .missingRefreshToken) ∧
    (truthy (pyOr rt env.envRefreshToken) →
      ¬ truthy (pyOr ci env.envClientId) →
      zohoAuthInit rt ci cs env = .error .missingClientId) ∧
    (truthy (pyOr rt env.envRefreshToken) →
      truthy (pyOr ci env.envClientId) →
      ¬ truthy (pyOr cs env.envClientSecret) →
      zohoAuthInit rt ci cs env = .error .missingClientSecret) ∧
    (truthy (pyOr rt env.envRefreshToken) →
      truthy (pyOr ci env.envClientId) →
      truthy (pyOr cs env.envClientSecret) →
      ∃ s, zohoAuthInit rt ci cs env = .ok s) ∧
    (truthy (pyOr rt env.envRefreshToken) →
      truthy (pyOr ci env.envClientId) →
      truthy (pyOr cs env.envClientSecret) →
      env.cached = none →
      (refresh_access_token ⟨none, 0⟩ env.refreshEnv).2 = false →
      ∃ s, zohoAuthInit rt ci cs env = .ok s ∧ s.token_expiry = 0 ∧
        (s.auth_token ≠ none →
          ∃ st data, env.refreshEnv.http = .response st (some data) ∧
            st < 400 ∧ s.auth_token = data.access_token ∧
            (truthy data.access_token = false ∨
              env.refreshEnv.saveFails = true))) := by
  refine ⟨?_, ?_, ?_, ?_, ?_⟩
  · intro h1
    simp [zohoAuthInit, h1]
  · intro h1 h2
    simp [zohoAuthInit, h1, h2]
  · intro h1 h2 h3
    simp [zohoAuthInit, h1, h2, h3]
  · intro h1 h2 h3
    by_cases hc : truthy env.cached
    · rcases he : env.expiryRead with _ | e
      · exact ⟨(refresh_access_token ⟨env.cached, 0⟩ env.refreshEnv).1,
          by simp [zohoAuthInit, h1, h2, h3, hc, he]⟩
      · exact ⟨⟨env.cached, e⟩,
          by simp [zohoAuthInit, h1, h2, h3, hc, he]⟩
    · exact ⟨(refresh_access_token ⟨env.cached, 0⟩ env.refreshEnv).1,
        by simp [zohoAuthInit, h1, h2, h3, hc]⟩
  · intro h1 h2 h3 hc hfail
    have hct : ¬ truthy env.cached := by simp [hc, truthy]
    have htn : truthy (none : Option String) = false := rfl
    refine ⟨(refresh_access_token ⟨none, 0⟩ env.refreshEnv).1,
      by simp [zohoAuthInit, h1, h2, h3, hc, htn], ?_, ?_⟩
    · exact refresh_failed_expiry ⟨none, 0⟩ env.refreshEnv hfail
    · intro hne
      rcases refresh_failed_token_cases ⟨none, 0⟩ env.refreshEnv hfail rfl
        with htok | ⟨st, data, hresp, hst, htok, hwhy⟩
      · exact absurd htok hne
      · exact ⟨st, data, hresp, hst, htok, hwhy⟩

/-- Witness for C10 (amended): all credentials present, no cache, the
immediate refresh hits a transport error; construction still succeeds
with expiry 0 and a token that can only be non-null under the 2xx-body
proviso (vacuous here). -/
theorem C10_construction_total_witness :
    ∃ s, zohoAuthInit (some "rt") (some "ci") (some "cs")
        ⟨none, none, none, none, none, ⟨.transportError, false, 50⟩⟩ =
      .ok s ∧ s.token_expiry = 0 ∧
      (s.auth_token ≠ none →
        ∃ st data,
          (⟨none, none, none, none, none,
            ⟨.transportError, false, 50⟩⟩ : InitEnv).refreshEnv.http =
              .response st (some data) ∧
          st < 400 ∧ s.auth_token = data.access_token ∧
          (truthy data.access_token = false ∨
            (⟨none, none, none, none, none,
              ⟨.transportError, false, 50⟩⟩ : InitEnv).refreshEnv.saveFails
              = true)) :=
  (C10_construction_total (some "rt") (some "ci") (some "cs")
      ⟨none, none, none, none, none, ⟨.transportError, false, 50⟩⟩).2.2.2.2
    (by decide) (by decide) (by decide) rfl rfl

end ZohoInv
